import Mathlib

/-!
Verification of the hostel-backend leave-management core against its
specification.  The definitions below are a shallow embedding of the
TypeScript source: the haversine distance (`calculateDistance`), the
parent review endpoint (`reviewLeave`), the admin override
(`leaveAdminApprove`), the transactional parent assignment
(`assignParentToStudent`) and the student cascade deletion
(`deleteStudent` plus the user-model `deleteOne` hook).  Mongoose
documents become Lean structures projected onto the fields these
operations read or write; the database becomes an explicit record of
lists; JavaScript numbers become real numbers; HTTP error responses
become constructors of error types.
-/

namespace HostelBackend

/-! ## Geographic distance (src: deg2rad / calculateDistance) -/

/-- `deg * (Math.PI / 180)`. -/
noncomputable def deg2rad (deg : ℝ) : ℝ := deg * (Real.pi / 180)

/-- JavaScript `Math.atan2(y, x)` on real numbers. -/
noncomputable def atan2 (y x : ℝ) : ℝ :=
  if 0 < x then Real.arctan (y / x)
  else if x < 0 ∧ 0 ≤ y then Real.arctan (y / x) + Real.pi
  else if x < 0 ∧ y < 0 then Real.arctan (y / x) - Real.pi
  else if x = 0 ∧ 0 < y then Real.pi / 2
  else if x = 0 ∧ y < 0 then -(Real.pi / 2)
  else 0

/-- The haversine distance of the source.  JavaScript destructuring
`const [lon1, lat1] = coords1` reads the first two elements; every call
site first checks that the arrays have length exactly 2, where `getD`
agrees with the destructuring. -/
noncomputable def calculateDistance (coords1 coords2 : List ℝ) : ℝ :=
  let lon1 := coords1.getD 0 0
  let lat1 := coords1.getD 1 0
  let lon2 := coords2.getD 0 0
  let lat2 := coords2.getD 1 0
  let R : ℝ := 6371
  let dLat := deg2rad (lat2 - lat1)
  let dLon := deg2rad (lon2 - lon1)
  let a :=
    Real.sin (dLat / 2) ^ 2 +
      Real.cos (deg2rad lat1) * Real.cos (deg2rad lat2) *
        Real.sin (dLon / 2) ^ 2
  let c := 2 * atan2 (Real.sqrt a) (Real.sqrt (1 - a))
  R * c

/-- The spec formula of §4.1, written from the spec's words:
`a = sin²(Δlat/2) + cos(lat1)·cos(lat2)·sin²(Δlon/2)`,
`distance = 2R·atan2(√a, √(1−a))`, `R = 6371`, angles converted to
radians by `deg·π/180` before use. -/
noncomputable def geoDistanceSpec (lon1 lat1 lon2 lat2 : ℝ) : ℝ :=
  let a :=
    Real.sin (deg2rad (lat2 - lat1) / 2) ^ 2 +
      Real.cos (deg2rad lat1) * Real.cos (deg2rad lat2) *
        Real.sin (deg2rad (lon2 - lon1) / 2) ^ 2
  2 * 6371 * atan2 (Real.sqrt a) (Real.sqrt (1 - a))

/-! ## Data model (src: leave.model, user.model) -/

/-- Status enum of the leave schema and of the embedded review schema. -/
inductive ReviewStatus
  | pending
  | approved
  | rejected
deriving DecidableEq, Repr

/-- Embedded review sub-document (`reviewSchema`). -/
structure Review where
  status : ReviewStatus
  remarks : String
  reviewedBy : Option Nat
  reviewedAt : Option Nat
deriving DecidableEq, Repr

/-- GeoJSON point; only the coordinate array matters to the code. -/
structure GeoLocation where
  coordinates : List ℝ

/-- Leave document projected onto the fields the modelled operations
read or write. -/
structure Leave where
  id : Nat
  studentId : Nat
  status : ReviewStatus
  parentReview : Option Review
  staffReview : Option Review
  leaveLocation : Option GeoLocation

/-- User document projected onto the fields the modelled operations
read or write. -/
structure User where
  id : Nat
  role : String
  parentId : Option Nat
  children : List Nat
deriving DecidableEq, Repr

/-- Modelled from the spec: the complaint schema file
(`complaints.model`) is not part of the given sources.  The spec states
a complaint is "owned by a student", and the user-model
`pre("deleteOne")` hook in the sources deletes complaints by the
`studentId` path, so the owner reference is modelled as `studentId`. -/
structure Complaint where
  id : Nat
  studentId : Nat
deriving DecidableEq, Repr

/-- The persistent store, one list per collection. -/
structure DB where
  users : List User
  leaves : List Leave
  complaints : List Complaint

/-- `User.findOne({_id: uid, role: role})`. -/
def findUserWithRole (db : DB) (uid : Nat) (role : String) : Option User :=
  db.users.find? (fun u => u.id == uid && u.role == role)

/-- `Leave.findOne({_id: leaveId, studentId: {$in: children}})`. -/
def findOwnedLeave (db : DB) (leaveId : Nat) (children : List Nat) :
    Option Leave :=
  db.leaves.find? (fun l => l.id == leaveId && children.contains l.studentId)

/-- Persisting a leave document overwrites the stored one with the same id. -/
def saveLeave (db : DB) (l : Leave) : DB :=
  { db with leaves := db.leaves.map (fun x => if x.id == l.id then l else x) }

/-! ## Parent review (src: reviewLeave) -/

/-- The error responses of `reviewLeave`, one constructor per distinct
response the controller can return before a successful save. -/
inductive ReviewError
  | unauthorized
  | invalidAction
  | parentNotFound
  | leaveNotFound
  | invalidParentLocation
  | invalidLeaveLocation
  | invalidLeaveLocationCoords
  | geofenceViolation
  | alreadyReviewed
deriving DecidableEq, Repr

/-- `const restrictedRadius = 5`. -/
noncomputable def restrictedRadius : ℝ := 5

/-- The `reviewLeave` controller.  A missing or non-conforming request
location is the `Option`/length checks; `leave.staffReview?.status ===
"approved"` is the `Option.map` comparison; the two `save` calls are
kept: the first persists the review, the second persists the location
redaction when the new status is terminal. -/
noncomputable def reviewLeave (db : DB) (leaveId : Nat) (userId : Option Nat)
    (action remarks : String) (currentParentLocation : Option GeoLocation)
    (now : Nat) : Except ReviewError Leave × DB :=
  match userId with
  | none => (.error .unauthorized, db)
  | some parentId =>
    if ¬ (action = "approve" ∨ action = "reject") then
      (.error .invalidAction, db)
    else
      match findUserWithRole db parentId "parent" with
      | none => (.error .parentNotFound, db)
      | some parent =>
        match findOwnedLeave db leaveId parent.children with
        | none => (.error .leaveNotFound, db)
        | some leave =>
          match currentParentLocation with
          | none => (.error .invalidParentLocation, db)
          | some cloc =>
            if cloc.coordinates.length ≠ 2 then
              (.error .invalidParentLocation, db)
            else
              match leave.leaveLocation with
              | none => (.error .invalidLeaveLocation, db)
              | some lloc =>
                if lloc.coordinates.length ≠ 2 then
                  (.error .invalidLeaveLocationCoords, db)
                else
                  let distance :=
                    calculateDistance cloc.coordinates lloc.coordinates
                  if distance < restrictedRadius ∧ action = "approve" then
                    (.error .geofenceViolation, db)
                  else if leave.status ≠ .pending then
                    (.error .alreadyReviewed, db)
                  else
                    let reviewed : Leave :=
                      { leave with
                        parentReview := some
                          { status :=
                              if action = "approve" then .approved
                              else .rejected,
                            remarks := remarks,
                            reviewedBy := some parentId,
                            reviewedAt := some now },
                        status :=
                          if leave.staffReview.map Review.status =
                                some .approved ∧ action = "approve" then
                            .approved
                          else if action = "reject" then .rejected
                          else .pending }
                    let db1 := saveLeave db reviewed
                    if reviewed.status = .approved ∨
                        reviewed.status = .rejected then
                      let cleared := { reviewed with leaveLocation := none }
                      (.ok cleared, saveLeave db1 cleared)
                    else
                      (.ok reviewed, db1)

/-! ## Admin override (src: leaveAdminApprove) -/

/-- The error responses of `leaveAdminApprove`. -/
inductive AdminError
  | invalidAction
  | invalidLeaveId
  | leaveNotFound
deriving DecidableEq, Repr

/-- The fixed remark stamped on both sub-reviews by the override. -/
def adminRemark : String := "Approved by admin"

/-- The `leaveAdminApprove` controller.  The route parameter is a
string; `mongoose.Types.ObjectId.isValid` rejects malformed ids, which
is modelled by `Option Nat` with `none` for an id that fails that
check.  The single `findOneAndUpdate` sets the overall status and all
four fields of both sub-reviews in one atomic write. -/
def leaveAdminApprove (db : DB) (leaveId : Option Nat) (action : String)
    (adminId : Nat) (now : Nat) : Except AdminError Leave × DB :=
  if ¬ (action = "approve" ∨ action = "reject") then
    (.error .invalidAction, db)
  else
    match leaveId with
    | none => (.error .invalidLeaveId, db)
    | some lid =>
      match db.leaves.find? (fun l => l.id == lid) with
      | none => (.error .leaveNotFound, db)
      | some leave =>
        let newStatus : ReviewStatus :=
          if action = "approve" then .approved else .rejected
        let stamped : Review :=
          { status := newStatus, remarks := adminRemark,
            reviewedBy := some adminId, reviewedAt := some now }
        let updated : Leave :=
          { leave with
            status := newStatus,
            staffReview := some stamped,
            parentReview := some stamped }
        (.ok updated, saveLeave db updated)

/-! ## Parent assignment (src: assignParentToStudent) -/

/-- The error responses of `assignParentToStudent`; `internal` is the
500 surfaced when a write inside the transaction fails and the
transaction aborts. -/
inductive AssignError
  | missingIds
  | notFoundOrBadRole
  | alreadyHasParent
  | internal
deriving DecidableEq, Repr

/-- First transactional write:
`User.findByIdAndUpdate(studentId, {parentId: parentId})`. -/
def setStudentParent (db : DB) (sid pid : Nat) : DB :=
  { db with
    users := db.users.map (fun u =>
      if u.id == sid then { u with parentId := some pid } else u) }

/-- Second transactional write:
`User.findByIdAndUpdate(parentId, {$addToSet: {children: studentId}})`. -/
def addChildToParent (db : DB) (pid sid : Nat) : DB :=
  { db with
    users := db.users.map (fun u =>
      if u.id == pid then
        { u with
          children :=
            if u.children.contains sid then u.children
            else u.children ++ [sid] }
      else u) }

/-- The `assignParentToStudent` controller.  Both writes run inside one
mongoose session transaction: writes become visible only at
`commitTransaction`, and `abortTransaction` discards them, so an
injected failure of the second write (`failSecondWrite`) leaves the
store untouched. -/
def assignParentToStudent (db : DB) (studentId parentId : Option Nat)
    (failSecondWrite : Bool) : Except AssignError Unit × DB :=
  match studentId, parentId with
  | some sid, some pid =>
    match findUserWithRole db sid "student",
        findUserWithRole db pid "parent" with
    | some student, some _ =>
      if student.parentId.isSome then (.error .alreadyHasParent, db)
      else if failSecondWrite then (.error .internal, db)
      else (.ok (), addChildToParent (setStudentParent db sid pid) pid sid)
    | _, _ => (.error .notFoundOrBadRole, db)
  | _, _ => (.error .missingIds, db)

/-! ## Student deletion (src: deleteStudent, user-model deleteOne hook) -/

/-- The error response of `deleteStudent`. -/
inductive DeleteError
  | notFound
deriving DecidableEq, Repr

/-- Modelled from the spec: the controller runs
`Complaint.deleteMany({student: ...})`, but the complaint schema
(absent from the sources) has no `student` path — its owner reference
is `studentId`, the path the user-model hook queries — so this filter
matches no stored complaint.  (Under a store that strips unknown query
paths the same call would instead delete every complaint, which only
over-deletes and cannot leave an owned complaint behind.) -/
def complaintStudentPathEq (_c : Complaint) (_x : Nat) : Bool := false

/-- Document-level `deleteOne` on a user: the `pre("deleteOne")` hook
first deletes every leave and complaint whose `studentId` is this
user's id, then the user document itself is removed. -/
def userDeleteOne (db : DB) (uid : Nat) : DB :=
  { users := db.users.filter (fun u => u.id != uid),
    leaves := db.leaves.filter (fun l => l.studentId != uid),
    complaints := db.complaints.filter (fun c => c.studentId != uid) }

/-- The `deleteStudent` controller: find the student, delete its
leaves, run the (ineffective) complaint deletion by the `student` path,
then `student.deleteOne()` which triggers the hook. -/
def deleteStudent (db : DB) (id : Nat) : Except DeleteError Unit × DB :=
  match findUserWithRole db id "student" with
  | none => (.error .notFound, db)
  | some student =>
    let db1 :=
      { db with leaves := db.leaves.filter (fun l => l.studentId != student.id) }
    let db2 :=
      { db1 with
        complaints :=
          db1.complaints.filter (fun c => !complaintStudentPathEq c student.id) }
    (.ok (), userDeleteOne db2 student.id)

/-! ## Lemmas about the distance function -/

lemma atan2_zero_one : atan2 0 1 = 0 := by
  unfold atan2
  rw [if_pos one_pos]
  simp

lemma atan2_one_zero : atan2 1 0 = Real.pi / 2 := by
  unfold atan2
  norm_num

lemma calculateDistance_self (c : List ℝ) : calculateDistance c c = 0 := by
  unfold calculateDistance
  simp [deg2rad, atan2_zero_one]

lemma calculateDistance_symm (c1 c2 : List ℝ) :
    calculateDistance c1 c2 = calculateDistance c2 c1 := by
  have h1 : deg2rad (c2.getD 1 0 - c1.getD 1 0) =
      -deg2rad (c1.getD 1 0 - c2.getD 1 0) := by
    unfold deg2rad; ring
  have h2 : deg2rad (c2.getD 0 0 - c1.getD 0 0) =
      -deg2rad (c1.getD 0 0 - c2.getD 0 0) := by
    unfold deg2rad; ring
  have key : Real.sin (deg2rad (c2.getD 1 0 - c1.getD 1 0) / 2) ^ 2 +
      Real.cos (deg2rad (c1.getD 1 0)) * Real.cos (deg2rad (c2.getD 1 0)) *
        Real.sin (deg2rad (c2.getD 0 0 - c1.getD 0 0) / 2) ^ 2 =
      Real.sin (deg2rad (c1.getD 1 0 - c2.getD 1 0) / 2) ^ 2 +
      Real.cos (deg2rad (c2.getD 1 0)) * Real.cos (deg2rad (c1.getD 1 0)) *
        Real.sin (deg2rad (c1.getD 0 0 - c2.getD 0 0) / 2) ^ 2 := by
    rw [h1, h2, neg_div, neg_div, Real.sin_neg, Real.sin_neg]
    ring
  simp only [calculateDistance]
  rw [key]

lemma calculateDistance_antipodal :
    calculateDistance [180, 0] [0, 0] = 6371 * Real.pi := by
  have h180 : deg2rad (0 - 180) = -Real.pi := by unfold deg2rad; ring
  have hz : deg2rad (0 - 0) = 0 := by unfold deg2rad; ring
  have hz2 : deg2rad 0 = 0 := by unfold deg2rad; ring
  simp only [calculateDistance, List.getD_cons_zero, List.getD_cons_succ,
    h180, hz, hz2]
  rw [neg_div, Real.sin_neg]
  norm_num [Real.sin_pi_div_two, atan2_one_zero]
  ring

lemma antipodal_not_lt_radius :
    ¬ calculateDistance [180, 0] [0, 0] < restrictedRadius := by
  rw [calculateDistance_antipodal]
  unfold restrictedRadius
  nlinarith [Real.pi_gt_three]

lemma self_lt_radius (c : List ℝ) : calculateDistance c c < restrictedRadius := by
  rw [calculateDistance_self]
  unfold restrictedRadius
  norm_num

/-! ## Claim theorems -/

/-- C8: for every two `[longitude, latitude]` pairs in degrees,
`calculateDistance` converts each angle to radians via `deg·π/180` and
returns the haversine great-circle distance `2·R·atan2(√a, √(1−a))`
with `R = 6371` km and `a = sin²(Δlat/2) + cos(lat1)·cos(lat2)·
sin²(Δlon/2)`; it is a total function on real inputs, producing a
numeric result even for out-of-range coordinates. -/
theorem calculateDistance_matches_haversine_spec (lon1 lat1 lon2 lat2 : ℝ) :
    calculateDistance [lon1, lat1] [lon2, lat2] =
      geoDistanceSpec lon1 lat1 lon2 lat2 := by
  simp only [calculateDistance, geoDistanceSpec, List.getD_cons_zero,
    List.getD_cons_succ]
  ring

/-- C9: `calculateDistance` is symmetric in its two coordinate pairs,
and is zero on two identical pairs. -/
theorem calculateDistance_symm_and_self :
    (∀ c1 c2 : List ℝ, calculateDistance c1 c2 = calculateDistance c2 c1) ∧
    (∀ c : List ℝ, calculateDistance c c = 0) :=
  ⟨calculateDistance_symm, calculateDistance_self⟩

/-- C3: a parent approval whose computed distance to the stored leave
location is strictly below the 5 km radius is refused with the geofence
PolicyViolation and leaves the store unchanged, whatever the staff
review or overall status; and a rejection is never refused on grounds
of distance. -/
theorem reviewLeave_geofence_refusal :
    (∀ (db : DB) (leaveId uid : Nat) (remarks : String) (cloc : GeoLocation)
      (now : Nat) (parent : User) (leave : Leave) (lloc : GeoLocation),
      findUserWithRole db uid "parent" = some parent →
      findOwnedLeave db leaveId parent.children = some leave →
      cloc.coordinates.length = 2 →
      leave.leaveLocation = some lloc →
      lloc.coordinates.length = 2 →
      calculateDistance cloc.coordinates lloc.coordinates < restrictedRadius →
      reviewLeave db leaveId (some uid) "approve" remarks (some cloc) now =
        (.error .geofenceViolation, db)) ∧
    (∀ (db : DB) (leaveId : Nat) (userId : Option Nat) (remarks : String)
      (cloc : Option GeoLocation) (now : Nat),
      (reviewLeave db leaveId userId "reject" remarks cloc now).1 ≠
        Except.error ReviewError.geofenceViolation) := by
  constructor
  · intro db leaveId uid remarks cloc now parent leave lloc hparent hleave
      hclen hlloc hllen hdist
    simp only [reviewLeave, hparent, hleave, hlloc]
    rw [if_neg (by decide), if_neg (by simp [hclen]), if_neg (by simp [hllen])]
    simp [hdist]
  · intro db leaveId userId remarks cloc now
    match userId with
    | none => simp [reviewLeave]
    | some uid =>
      simp only [reviewLeave]
      repeat' split
      all_goals simp_all

/-- Witness for C3 at a concrete store: the parent of student 2 tries
to approve leave 10 from the very point stored on the leave, distance
0 km, and is refused without mutation. -/
theorem reviewLeave_geofence_refusal_witness :
    reviewLeave
        ⟨[⟨1, "parent", none, [2]⟩],
         [⟨10, 2, .pending, none, none, some ⟨[0, 0]⟩⟩], []⟩
        10 (some 1) "approve" "" (some ⟨[0, 0]⟩) 0 =
      (.error .geofenceViolation,
        ⟨[⟨1, "parent", none, [2]⟩],
         [⟨10, 2, .pending, none, none, some ⟨[0, 0]⟩⟩], []⟩) :=
  reviewLeave_geofence_refusal.1 _ 10 1 "" ⟨[0, 0]⟩ 0
    ⟨1, "parent", none, [2]⟩ ⟨10, 2, .pending, none, none, some ⟨[0, 0]⟩⟩
    ⟨[0, 0]⟩ rfl rfl rfl rfl rfl (self_lt_radius [0, 0])

/-- C2: for a parent review of a pending leave that passes the
geofence, reject makes the overall status rejected regardless of the
staff review; approve with staff already approved makes it approved;
approve with staff not yet approved leaves it pending. -/
theorem reviewLeave_consensus (db : DB) (leaveId uid : Nat)
    (remarks : String) (cloc : GeoLocation) (now : Nat)
    (parent : User) (leave : Leave) (lloc : GeoLocation)
    (hparent : findUserWithRole db uid "parent" = some parent)
    (hleave : findOwnedLeave db leaveId parent.children = some leave)
    (hclen : cloc.coordinates.length = 2)
    (hlloc : leave.leaveLocation = some lloc)
    (hllen : lloc.coordinates.length = 2)
    (hpend : leave.status = .pending) :
    (∃ l', (reviewLeave db leaveId (some uid) "reject" remarks
        (some cloc) now).1 = .ok l' ∧ l'.status = .rejected) ∧
    (¬ calculateDistance cloc.coordinates lloc.coordinates <
        restrictedRadius →
      ((leave.staffReview.map Review.status = some .approved →
        ∃ l', (reviewLeave db leaveId (some uid) "approve" remarks
          (some cloc) now).1 = .ok l' ∧ l'.status = .approved) ∧
       (¬ leave.staffReview.map Review.status = some .approved →
        ∃ l', (reviewLeave db leaveId (some uid) "approve" remarks
          (some cloc) now).1 = .ok l' ∧ l'.status = .pending))) := by
  refine ⟨?_, fun hfar => ⟨fun hstaff => ?_, fun hstaff => ?_⟩⟩
  · simp only [reviewLeave, hparent, hleave, hlloc]
    rw [if_neg (by decide), if_neg (by simp [hclen]), if_neg (by simp [hllen])]
    simp [hpend]
  · simp only [reviewLeave, hparent, hleave, hlloc]
    rw [if_neg (by decide), if_neg (by simp [hclen]), if_neg (by simp [hllen])]
    simp [hpend, hfar, hstaff]
  · simp only [reviewLeave, hparent, hleave, hlloc]
    rw [if_neg (by decide), if_neg (by simp [hclen]), if_neg (by simp [hllen])]
    simp [hpend, hfar, hstaff]

/-- Witness for C2 at a concrete store: the parent approves leave 10
from an antipodal point (6371·π km away) while the staff review is
already approved, and the overall status becomes approved. -/
theorem reviewLeave_consensus_witness :
    ∃ l', (reviewLeave
        ⟨[⟨1, "parent", none, [2]⟩],
         [⟨10, 2, .pending, none, some ⟨.approved, "", none, none⟩,
           some ⟨[0, 0]⟩⟩], []⟩
        10 (some 1) "approve" "" (some ⟨[180, 0]⟩) 0).1 = .ok l' ∧
      l'.status = .approved :=
  ((reviewLeave_consensus
      ⟨[⟨1, "parent", none, [2]⟩],
       [⟨10, 2, .pending, none, some ⟨.approved, "", none, none⟩,
         some ⟨[0, 0]⟩⟩], []⟩
      10 1 "" ⟨[180, 0]⟩ 0
      ⟨1, "parent", none, [2]⟩
      ⟨10, 2, .pending, none, some ⟨.approved, "", none, none⟩,
        some ⟨[0, 0]⟩⟩
      ⟨[0, 0]⟩ rfl rfl rfl rfl rfl rfl).2
    antipodal_not_lt_radius).1 rfl

/-- C10: in the parent review, the location-validation and geofence
checks run before the pending-status check: a review of a leave with an
absent or malformed stored location fails with the location validation
error, and an approval within the radius fails with the geofence
refusal, in both cases with no hypothesis on the leave's overall
status, so also when it is already terminal. -/
theorem reviewLeave_checks_precede_status :
    (∀ (db : DB) (leaveId uid : Nat) (action remarks : String)
      (cloc : GeoLocation) (now : Nat) (parent : User) (leave : Leave),
      (action = "approve" ∨ action = "reject") →
      findUserWithRole db uid "parent" = some parent →
      findOwnedLeave db leaveId parent.children = some leave →
      cloc.coordinates.length = 2 →
      leave.leaveLocation = none →
      reviewLeave db leaveId (some uid) action remarks (some cloc) now =
        (.error .invalidLeaveLocation, db)) ∧
    (∀ (db : DB) (leaveId uid : Nat) (action remarks : String)
      (cloc : GeoLocation) (now : Nat) (parent : User) (leave : Leave)
      (lloc : GeoLocation),
      (action = "approve" ∨ action = "reject") →
      findUserWithRole db uid "parent" = some parent →
      findOwnedLeave db leaveId parent.children = some leave →
      cloc.coordinates.length = 2 →
      leave.leaveLocation = some lloc →
      lloc.coordinates.length ≠ 2 →
      reviewLeave db leaveId (some uid) action remarks (some cloc) now =
        (.error .invalidLeaveLocationCoords, db)) ∧
    (∀ (db : DB) (leaveId uid : Nat) (remarks : String)
      (cloc : GeoLocation) (now : Nat) (parent : User) (leave : Leave)
      (lloc : GeoLocation),
      findUserWithRole db uid "parent" = some parent →
      findOwnedLeave db leaveId parent.children = some leave →
      cloc.coordinates.length = 2 →
      leave.leaveLocation = some lloc →
      lloc.coordinates.length = 2 →
      calculateDistance cloc.coordinates lloc.coordinates <
        restrictedRadius →
      reviewLeave db leaveId (some uid) "approve" remarks (some cloc) now =
        (.error .geofenceViolation, db)) := by
  refine ⟨?_, ?_, ?_⟩
  · intro db leaveId uid action remarks cloc now parent leave hact hparent
      hleave hclen hlloc
    simp only [reviewLeave, hparent, hleave, hlloc]
    rw [if_neg (not_not_intro hact), if_neg (by simp [hclen])]
  · intro db leaveId uid action remarks cloc now parent leave lloc hact
      hparent hleave hclen hlloc hllen
    simp only [reviewLeave, hparent, hleave, hlloc]
    rw [if_neg (not_not_intro hact), if_neg (by simp [hclen]),
      if_pos hllen]
  · intro db leaveId uid remarks cloc now parent leave lloc hparent hleave
      hclen hlloc hllen hdist
    simp only [reviewLeave, hparent, hleave, hlloc]
    rw [if_neg (by decide), if_neg (by simp [hclen]), if_neg (by simp [hllen])]
    simp [hdist]

/-- Witness for C10 at concrete stores, both on leaves whose overall
status is already terminal: leave 10 (approved, location redacted) is
rejected by its parent and fails with the location validation error,
not Conflict; leave 11 (approved, location still present) is approved
by its parent from distance 0 and fails with the geofence refusal, not
Conflict. -/
theorem reviewLeave_checks_precede_status_witness :
    reviewLeave
        ⟨[⟨1, "parent", none, [2]⟩],
         [⟨10, 2, .approved, none, none, none⟩], []⟩
        10 (some 1) "reject" "" (some ⟨[0, 0]⟩) 0 =
      (.error .invalidLeaveLocation,
        ⟨[⟨1, "parent", none, [2]⟩],
         [⟨10, 2, .approved, none, none, none⟩], []⟩) ∧
    reviewLeave
        ⟨[⟨1, "parent", none, [2]⟩],
         [⟨11, 2, .approved, none, none, some ⟨[0, 0]⟩⟩], []⟩
        11 (some 1) "approve" "" (some ⟨[0, 0]⟩) 0 =
      (.error .geofenceViolation,
        ⟨[⟨1, "parent", none, [2]⟩],
         [⟨11, 2, .approved, none, none, some ⟨[0, 0]⟩⟩], []⟩) :=
  ⟨reviewLeave_checks_precede_status.1
      ⟨[⟨1, "parent", none, [2]⟩],
       [⟨10, 2, .approved, none, none, none⟩], []⟩
      10 1 "reject" "" ⟨[0, 0]⟩ 0 ⟨1, "parent", none, [2]⟩
      ⟨10, 2, .approved, none, none, none⟩
      (Or.inr rfl) rfl rfl rfl rfl,
   reviewLeave_checks_precede_status.2.2
      ⟨[⟨1, "parent", none, [2]⟩],
       [⟨11, 2, .approved, none, none, some ⟨[0, 0]⟩⟩], []⟩
      11 1 "" ⟨[0, 0]⟩ 0 ⟨1, "parent", none, [2]⟩
      ⟨11, 2, .approved, none, none, some ⟨[0, 0]⟩⟩ ⟨[0, 0]⟩
      rfl rfl rfl rfl rfl (self_lt_radius [0, 0])⟩

/-- Counterexample to C4 as stated: leave 10 is already terminal
(approved, with its location redacted per I1), yet the parent's review
fails with the location validation error, not with the Conflict
"already reviewed". -/
theorem reviewLeave_terminal_conflict_cex :
    (reviewLeave
        ⟨[⟨1, "parent", none, [2]⟩],
         [⟨10, 2, .approved, none, none, none⟩], []⟩
        10 (some 1) "reject" "" (some ⟨[0, 0]⟩) 0).1 =
      .error .invalidLeaveLocation ∧
    (reviewLeave
        ⟨[⟨1, "parent", none, [2]⟩],
         [⟨10, 2, .approved, none, none, none⟩], []⟩
        10 (some 1) "reject" "" (some ⟨[0, 0]⟩) 0).1 ≠
      .error .alreadyReviewed := by
  have h : reviewLeave
      ⟨[⟨1, "parent", none, [2]⟩],
       [⟨10, 2, .approved, none, none, none⟩], []⟩
      10 (some 1) "reject" "" (some ⟨[0, 0]⟩) 0 =
      (.error .invalidLeaveLocation,
        ⟨[⟨1, "parent", none, [2]⟩],
         [⟨10, 2, .approved, none, none, none⟩], []⟩) := by
    simp only [reviewLeave,
      show findUserWithRole
          ⟨[⟨1, "parent", none, [2]⟩],
           [⟨10, 2, .approved, none, none, none⟩], []⟩ 1 "parent" =
          some ⟨1, "parent", none, [2]⟩ from rfl]
    simp only [show findOwnedLeave
          ⟨[⟨1, "parent", none, [2]⟩],
           [⟨10, 2, .approved, none, none, none⟩], []⟩ 10 [2] =
          some ⟨10, 2, .approved, none, none, none⟩ from rfl]
    simp
  rw [h]
  exact ⟨rfl, by simp⟩

/-- C4 amended: reviewing a leave whose overall status is already
terminal always fails and never mutates the store, but the error is
Conflict ("already reviewed") only when the caller and stored locations
pass validation and the geofence does not refuse the action first;
otherwise the earlier location validation or geofence error is
returned. -/
theorem reviewLeave_terminal_amended (db : DB) (leaveId uid : Nat)
    (action remarks : String) (cloc : Option GeoLocation) (now : Nat)
    (parent : User) (leave : Leave)
    (hparent : findUserWithRole db uid "parent" = some parent)
    (hleave : findOwnedLeave db leaveId parent.children = some leave)
    (hterm : leave.status ≠ .pending) :
    (reviewLeave db leaveId (some uid) action remarks cloc now).2 = db ∧
    (∀ l', (reviewLeave db leaveId (some uid) action remarks cloc now).1 ≠
      .ok l') ∧
    (∀ c lc : GeoLocation, cloc = some c → c.coordinates.length = 2 →
      leave.leaveLocation = some lc → lc.coordinates.length = 2 →
      ¬ (calculateDistance c.coordinates lc.coordinates <
          restrictedRadius ∧ action = "approve") →
      (action = "approve" ∨ action = "reject") →
      (reviewLeave db leaveId (some uid) action remarks cloc now).1 =
        .error .alreadyReviewed) := by
  refine ⟨?_, ?_, ?_⟩
  · simp only [reviewLeave, hparent, hleave]
    repeat' split
    all_goals simp_all
  · intro l'
    simp only [reviewLeave, hparent, hleave]
    repeat' split
    all_goals simp_all
  · intro c lc hc hclen hlc hllen hpass hact
    subst hc
    simp only [reviewLeave, hparent, hleave, hlc]
    rw [if_neg (not_not_intro hact), if_neg (by simp [hclen]),
      if_neg (by simp [hllen])]
    rw [if_neg (by simpa using hpass), if_pos hterm]

/-- Witness for C4's amended theorem: leave 10 is already approved but
(as the admin-override path leaves it) still carries its location; the
parent's rejection passes every earlier check and fails with Conflict,
with the store unchanged. -/
theorem reviewLeave_terminal_amended_witness :
    (reviewLeave
        ⟨[⟨1, "parent", none, [2]⟩],
         [⟨10, 2, .approved, none, none, some ⟨[0, 0]⟩⟩], []⟩
        10 (some 1) "reject" "" (some ⟨[0, 0]⟩) 0).2 =
      ⟨[⟨1, "parent", none, [2]⟩],
       [⟨10, 2, .approved, none, none, some ⟨[0, 0]⟩⟩], []⟩ ∧
    (reviewLeave
        ⟨[⟨1, "parent", none, [2]⟩],
         [⟨10, 2, .approved, none, none, some ⟨[0, 0]⟩⟩], []⟩
        10 (some 1) "reject" "" (some ⟨[0, 0]⟩) 0).1 =
      .error .alreadyReviewed := by
  have h := reviewLeave_terminal_amended
    ⟨[⟨1, "parent", none, [2]⟩],
     [⟨10, 2, .approved, none, none, some ⟨[0, 0]⟩⟩], []⟩
    10 1 "reject" "" (some ⟨[0, 0]⟩) 0
    ⟨1, "parent", none, [2]⟩
    ⟨10, 2, .approved, none, none, some ⟨[0, 0]⟩⟩
    rfl rfl (by simp)
  exact ⟨h.1, h.2.2 ⟨[0, 0]⟩ ⟨[0, 0]⟩ rfl rfl rfl rfl
    (by rintro ⟨-, hcontra⟩; exact absurd hcontra (by decide))
    (Or.inr rfl)⟩

/-- C5: for an existing leave and a well-formed action the admin
override atomically sets both sub-reviews to the same terminal status
matching the action, stamped with the admin's identity and the fixed
remark, sets the overall status to match, with no geofence check and no
precondition on the previous status; an unknown id fails with NotFound
and a malformed action or id with a validation error. -/
theorem leaveAdminApprove_contract :
    (∀ (db : DB) (lid adminId now : Nat) (action : String) (leave : Leave),
      (action = "approve" ∨ action = "reject") →
      db.leaves.find? (fun l => l.id == lid) = some leave →
      ∃ l', leaveAdminApprove db (some lid) action adminId now =
          (.ok l', saveLeave db l') ∧
        l' = { leave with
          status := if action = "approve" then .approved else .rejected,
          staffReview := some
            { status := if action = "approve" then .approved else .rejected,
              remarks := adminRemark, reviewedBy := some adminId,
              reviewedAt := some now },
          parentReview := some
            { status := if action = "approve" then .approved else .rejected,
              remarks := adminRemark, reviewedBy := some adminId,
              reviewedAt := some now } }) ∧
    (∀ (db : DB) (lid adminId now : Nat) (action : String),
      (action = "approve" ∨ action = "reject") →
      db.leaves.find? (fun l => l.id == lid) = none →
      leaveAdminApprove db (some lid) action adminId now =
        (.error .leaveNotFound, db)) ∧
    (∀ (db : DB) (leaveId : Option Nat) (adminId now : Nat)
      (action : String),
      ¬ (action = "approve" ∨ action = "reject") →
      leaveAdminApprove db leaveId action adminId now =
        (.error .invalidAction, db)) ∧
    (∀ (db : DB) (adminId now : Nat) (action : String),
      (action = "approve" ∨ action = "reject") →
      leaveAdminApprove db none action adminId now =
        (.error .invalidLeaveId, db)) := by
  refine ⟨?_, ?_, ?_, ?_⟩
  · intro db lid adminId now action leave hact hfind
    simp only [leaveAdminApprove, hfind]
    rw [if_neg (not_not_intro hact)]
    exact ⟨_, rfl, rfl⟩
  · intro db lid adminId now action hact hfind
    simp only [leaveAdminApprove, hfind]
    rw [if_neg (not_not_intro hact)]
  · intro db leaveId adminId now action hact
    simp only [leaveAdminApprove]
    rw [if_pos hact]
  · intro db adminId now action hact
    simp only [leaveAdminApprove]
    rw [if_neg (not_not_intro hact)]

/-- Witness for C5 at a concrete store: an admin approve on leave 10,
which is already rejected, still succeeds (no pending precondition) and
rewrites both sub-reviews and the overall status to approved. -/
theorem leaveAdminApprove_contract_witness :
    ∃ l', leaveAdminApprove
        ⟨[], [⟨10, 2, .rejected, none, none, none⟩], []⟩
        (some 10) "approve" 99 7 =
        (.ok l', saveLeave ⟨[], [⟨10, 2, .rejected, none, none, none⟩], []⟩ l') ∧
      l' = { id := 10, studentId := 2, status := .approved,
             parentReview := some ⟨.approved, adminRemark, some 99, some 7⟩,
             staffReview := some ⟨.approved, adminRemark, some 99, some 7⟩,
             leaveLocation := none } := by
  have h := leaveAdminApprove_contract.1
    ⟨[], [⟨10, 2, .rejected, none, none, none⟩], []⟩
    10 99 7 "approve" ⟨10, 2, .rejected, none, none, none⟩
    (Or.inl rfl) rfl
  simpa using h

/-- The invariant I1 of the spec: a leave carries its location exactly
while its overall status is pending. -/
def locationIffPending (l : Leave) : Prop :=
  l.leaveLocation ≠ none ↔ l.status = .pending

/-- C1 fails on the code: the admin override takes leave 10 from
pending to approved but never clears `leaveLocation`, so the returned
(and stored) record is terminal yet still carries the location,
breaking I1; the parent-review path by contrast does clear it. -/
theorem leaveAdminApprove_breaks_I1 :
    ∃ l', (leaveAdminApprove
        ⟨[], [⟨10, 2, .pending, none, none, some ⟨[0, 0]⟩⟩], []⟩
        (some 10) "approve" 99 0).1 = .ok l' ∧
      l'.status = .approved ∧ l'.leaveLocation = some ⟨[0, 0]⟩ ∧
      ¬ locationIffPending l' ∧
      (leaveAdminApprove
        ⟨[], [⟨10, 2, .pending, none, none, some ⟨[0, 0]⟩⟩], []⟩
        (some 10) "approve" 99 0).2.leaves =
        [{ id := 10, studentId := 2, status := .approved,
           parentReview := some ⟨.approved, adminRemark, some 99, some 0⟩,
           staffReview := some ⟨.approved, adminRemark, some 99, some 0⟩,
           leaveLocation := some ⟨[0, 0]⟩ }] := by
  refine ⟨{ id := 10, studentId := 2, status := .approved,
            parentReview := some ⟨.approved, adminRemark, some 99, some 0⟩,
            staffReview := some ⟨.approved, adminRemark, some 99, some 0⟩,
            leaveLocation := some ⟨[0, 0]⟩ }, rfl, rfl, rfl, ?_, ?_⟩
  · simp [locationIffPending]
  · rfl

/-- C6: the parent assignment is all-or-nothing: every call either
leaves the store exactly as it was (any precondition failure, and in
particular an injected failure of the second write) or publishes
exactly the two writes — the student's `parentId` update composed with
the parent's `children` update. -/
theorem assignParentToStudent_atomic (db : DB)
    (studentId parentId : Option Nat) (failSecondWrite : Bool) :
    (∀ e, (assignParentToStudent db studentId parentId
        failSecondWrite).1 = .error e →
      (assignParentToStudent db studentId parentId failSecondWrite).2 =
        db) ∧
    (∀ u, (assignParentToStudent db studentId parentId
        failSecondWrite).1 = .ok u →
      ∃ sid pid, studentId = some sid ∧ parentId = some pid ∧
        failSecondWrite = false ∧
        (assignParentToStudent db studentId parentId failSecondWrite).2 =
          addChildToParent (setStudentParent db sid pid) pid sid) := by
  rcases studentId with _ | sid
  · exact ⟨fun e _ => rfl, fun u h => by simp [assignParentToStudent] at h⟩
  rcases parentId with _ | pid
  · exact ⟨fun e _ => rfl, fun u h => by simp [assignParentToStudent] at h⟩
  rcases hstu : findUserWithRole db sid "student" with _ | student
  · constructor
    · intro e _
      simp [assignParentToStudent, hstu]
    · intro u h
      simp [assignParentToStudent, hstu] at h
  rcases hpar : findUserWithRole db pid "parent" with _ | parent
  · constructor
    · intro e _
      simp [assignParentToStudent, hstu, hpar]
    · intro u h
      simp [assignParentToStudent, hstu, hpar] at h
  by_cases hsp : student.parentId.isSome
  · constructor
    · intro e _
      simp [assignParentToStudent, hstu, hpar, hsp]
    · intro u h
      simp [assignParentToStudent, hstu, hpar, hsp] at h
  cases failSecondWrite
  · constructor
    · intro e h
      simp [assignParentToStudent, hstu, hpar, hsp] at h
    · intro u _
      exact ⟨sid, pid, rfl, rfl, rfl, by
        simp [assignParentToStudent, hstu, hpar, hsp]⟩
  · constructor
    · intro e _
      simp [assignParentToStudent, hstu, hpar, hsp]
    · intro u h
      simp [assignParentToStudent, hstu, hpar, hsp] at h

/-- Witness for C6 at a concrete store: assigning parent 1 to student 2
succeeds without an injected failure, and the resulting store is
exactly the composition of the two writes. -/
theorem assignParentToStudent_atomic_witness :
    (assignParentToStudent
        ⟨[⟨2, "student", none, []⟩, ⟨1, "parent", none, []⟩], [], []⟩
        (some 2) (some 1) false).2 =
      addChildToParent
        (setStudentParent
          ⟨[⟨2, "student", none, []⟩, ⟨1, "parent", none, []⟩], [], []⟩
          2 1) 1 2 := by
  have h := (assignParentToStudent_atomic
      ⟨[⟨2, "student", none, []⟩, ⟨1, "parent", none, []⟩], [], []⟩
      (some 2) (some 1) false).2 () rfl
  rcases h with ⟨sid, pid, hs, hp, -, h2⟩
  injection hs with hs
  injection hp with hp
  subst hs
  subst hp
  exact h2

/-- C7: deleting an existing student succeeds and afterwards the store
holds no leave and no complaint whose `studentId` references that
student, and no user with the student's id. -/
theorem deleteStudent_cascade (db : DB) (id : Nat) (student : User)
    (hfind : findUserWithRole db id "student" = some student) :
    (deleteStudent db id).1 = .ok () ∧
    (∀ l ∈ (deleteStudent db id).2.leaves, l.studentId ≠ student.id) ∧
    (∀ c ∈ (deleteStudent db id).2.complaints,
      c.studentId ≠ student.id) ∧
    (∀ u ∈ (deleteStudent db id).2.users, u.id ≠ student.id) := by
  simp only [deleteStudent, hfind]
  refine ⟨by trivial, ?_, ?_, ?_⟩
  · intro l hl
    simp only [userDeleteOne, List.mem_filter] at hl
    simpa using hl.2
  · intro c hc
    simp only [userDeleteOne, List.mem_filter] at hc
    simpa using hc.2
  · intro u hu
    simp only [userDeleteOne, List.mem_filter] at hu
    simpa using hu.2

/-- Witness for C7 at a concrete store: deleting student 2 removes its
leave, its complaint and the user record itself. -/
theorem deleteStudent_cascade_witness :
    (deleteStudent ⟨[⟨2, "student", none, []⟩],
        [⟨10, 2, .pending, none, none, none⟩], [⟨5, 2⟩]⟩ 2).1 = .ok () ∧
    (∀ l ∈ (deleteStudent ⟨[⟨2, "student", none, []⟩],
        [⟨10, 2, .pending, none, none, none⟩], [⟨5, 2⟩]⟩ 2).2.leaves,
      l.studentId ≠ (⟨2, "student", none, []⟩ : User).id) ∧
    (∀ c ∈ (deleteStudent ⟨[⟨2, "student", none, []⟩],
        [⟨10, 2, .pending, none, none, none⟩], [⟨5, 2⟩]⟩ 2).2.complaints,
      c.studentId ≠ (⟨2, "student", none, []⟩ : User).id) ∧
    (∀ u ∈ (deleteStudent ⟨[⟨2, "student", none, []⟩],
        [⟨10, 2, .pending, none, none, none⟩], [⟨5, 2⟩]⟩ 2).2.users,
      u.id ≠ (⟨2, "student", none, []⟩ : User).id) :=
  deleteStudent_cascade
    ⟨[⟨2, "student", none, []⟩],
     [⟨10, 2, .pending, none, none, none⟩], [⟨5, 2⟩]⟩
    2 ⟨2, "student", none, []⟩ rfl

end HostelBackend
